import Mathlib

set_option maxRecDepth 100000

/-!
Shallow embedding of the pipeline execution and response-trust engine of
`agents-backend-prod` (files `src/integrations/validator.py` and
`src/core/orchestrator.py`), together with theorems settling the frozen
claims about its specification.

Strings are modelled as Lean `String`s (lists of characters); Python floats
are modelled exactly as rationals (`ℚ`); Python's `re` word-boundary
searches are modelled by an explicit scanner over the character list.
-/

namespace AgentsBackend

/-! ### Character helpers

`dquote`, `squote`, `backquote` are the three quotation characters the
validator's regular expressions mention. -/

def dquote : Char := Char.ofNat 34

def squote : Char := Char.ofNat 39

def backquote : Char := Char.ofNat 96

/-- Python regex word character (`\w`, ASCII fragment): letters, digits, underscore. -/
def isWordChar (c : Char) : Bool := c.isAlphanum || c == '_'

/-- Case-insensitive character comparison, for `re.IGNORECASE` searches. -/
def charEqCI (a b : Char) : Bool := a.toLower == b.toLower

/-- Case-sensitive character comparison, for plain `re` searches. -/
def charEqCS (a b : Char) : Bool := a == b

/-- Does the pattern match, character by character under `eqc`, a prefix of the text? -/
def matchesAt (eqc : Char → Char → Bool) : List Char → List Char → Bool
  | [], _ => true
  | _ :: _, [] => false
  | a :: ps, b :: ts => eqc a b && matchesAt eqc ps ts

/-- `\b` to the left of a match whose pattern starts with a word character:
the previous character, when there is one, must not be a word character. -/
def boundaryBefore (prev : Option Char) : Bool :=
  match prev with
  | none => true
  | some c => !isWordChar c

/-- `\b` to the right of a match whose pattern ends with a word character:
the character after the matched span, when there is one, must not be a word
character.  `n` is the pattern length, `l` the text from the match start. -/
def boundaryAfter (n : Nat) (l : List Char) : Bool :=
  match l.drop n with
  | [] => true
  | c :: _ => !isWordChar c

/-- Scanner for `re.search(r"\b<literal>\b", text)`: tries every start
position, remembering the previous character for the left boundary.  All
pattern literals in the source start and end with word characters, so `\b`
amounts to the neighbouring character not being a word character. -/
def searchFrom (eqc : Char → Char → Bool) (pat : List Char) :
    Option Char → List Char → Bool
  | _, [] => false
  | prev, c :: rest =>
      (boundaryBefore prev && matchesAt eqc pat (c :: rest) &&
        boundaryAfter pat.length (c :: rest))
      || searchFrom eqc pat (some c) rest

/-- `re.search(r"\b<pat>\b", text, re.IGNORECASE) is not None`. -/
def searchWordCI (pat : String) (text : List Char) : Bool :=
  searchFrom charEqCI pat.data none text

/-- `re.search(r"\b<pat>\b", text)` (case sensitive). -/
def searchWordCS (pat : String) (text : List Char) : Bool :=
  searchFrom charEqCS pat.data none text

/-! ### The pattern library (`HALLUCINATION_PATTERNS` in `validator.py`) -/

def HALLUCINATION_PATTERNS : List (String × List String) :=
  [("absolute_claims", ["always", "never", "impossible"]),
   ("invented_facts", ["I invented", "I created", "I developed"]),
   ("future_claims", ["will definitely", "will certainly"]),
   ("unqualified_statements", ["proven", "undeniable"])]

/-- All `(category, pattern)` pairs of a pattern table, in iteration order. -/
def pairsOf (L : List (String × List String)) : List (String × String) :=
  L.flatMap (fun cp => cp.2.map (fun p => (cp.1, p)))

/-- All `(category, pattern)` pairs of the hallucination table. -/
def allPatterns : List (String × String) := pairsOf HALLUCINATION_PATTERNS

/-- The pairs of a pattern table whose pattern matches the response
(case-insensitive, word boundaries), in iteration order. -/
def matchedIn (response : String) (L : List (String × List String)) :
    List (String × String) :=
  (pairsOf L).filter (fun cp => searchWordCI cp.2 response.data)

/-- The `(category, pattern)` pairs whose pattern matches the response
(case-insensitive, word boundaries), in iteration order. -/
def matchedPatterns (response : String) : List (String × String) :=
  matchedIn response HALLUCINATION_PATTERNS

/-! ### Contradiction scan

`re.findall(r"[^.!?]*\b(but|however)\b[^.!?]*", response)` produces one
match per maximal `.!?`-free segment that contains the word `but` or
`however` (the greedy `[^.!?]*` swallow the whole segment). -/

def isSentenceEnd (c : Char) : Bool := c == '.' || c == '!' || c == '?'

/-- Split into maximal runs of non-`.!?` characters (delimiters dropped). -/
def splitSegs : List Char → List (List Char)
  | [] => [[]]
  | c :: rest =>
      let ss := splitSegs rest
      if isSentenceEnd c then [] :: ss
      else
        match ss with
        | s :: tl => (c :: s) :: tl
        | [] => [[c]]

def hasContradiction (seg : List Char) : Bool :=
  searchWordCS "but" seg || searchWordCS "however" seg

/-- The list of `findall` matches for the contradiction regex (one entry per
segment containing `but` or `however`). -/
def contradiction_matches (response : String) : List (List Char) :=
  (splitSegs response.data).filter hasContradiction

/-! ### Word count and quote count -/

/-- `len(response.split())`: number of maximal whitespace-free runs. -/
def wordCountAux : Bool → List Char → Nat
  | _, [] => 0
  | inWord, c :: rest =>
      if c.isWhitespace then wordCountAux false rest
      else (if inWord then 0 else 1) + wordCountAux true rest

def wordCount (l : List Char) : Nat := wordCountAux false l

/-- `len(re.findall(r'["\x27\x60]', response))`: quotation characters. -/
def quoteCount (l : List Char) : Nat :=
  (l.filter (fun c => c == dquote || c == squote || c == backquote)).length

/-! ### `validate_response` -/

structure ValidationReport where
  status : String
  issues : List String
  confidence : ℚ
  issue_count : Nat
deriving DecidableEq

/-- Status classification from the number of issues, as in the source. -/
def classify (n : Nat) : String :=
  if n > 3 then "failed" else if n > 0 then "flagged" else "passed"

/-- Body of the inner loop over the patterns of one category: on a match,
append the category's issue and deduct 0.15. -/
def patInner (resp : String) (cat : String) (acc2 : List String × ℚ) (pat : String) :
    List String × ℚ :=
  if searchWordCI pat resp.data then
    (acc2.1 ++ ["Found absolute claim pattern: " ++ cat], acc2.2 - 0.15)
  else acc2

/-- Body of the outer loop over `HALLUCINATION_PATTERNS`. -/
def patStep (resp : String) (acc : List String × ℚ) (cp : String × List String) :
    List String × ℚ :=
  cp.2.foldl (patInner resp cp.1) acc

/-- Body of the loop over the first two contradiction matches. -/
def contraStep (acc : List String × ℚ) (_m : List Char) : List String × ℚ :=
  (acc.1 ++ ["Potential contradiction detected"], acc.2 - 0.10)

/-- Embedding of `validate_response` from `src/integrations/validator.py`.
The accumulator `(issues, confidence)` threads through the same four checks
in source order. -/
def validate_response (response : String) : ValidationReport :=
  let s1 := HALLUCINATION_PATTERNS.foldl (patStep response) (([] : List String), (1 : ℚ))
  let s2 := ((contradiction_matches response).take 2).foldl contraStep s1
  let s3 := if wordCount response.data < 20 then
      (s2.1 ++ ["Response too short (may be incomplete)"], s2.2 - 0.20)
    else s2
  let s4 := if quoteCount response.data == 0 && response.length > 200 then
      (s3.1 ++ ["No quoted sources found"], s3.2 - 0.05)
    else s3
  { status := classify s4.1.length, issues := s4.1,
    confidence := max 0 s4.2, issue_count := s4.1.length }

/-! ### Decomposition of `validate_response`, check by check

These definitions name the contribution of each of the four checks; the
characterization theorem below proves that `validate_response` equals their
assembly. -/

/-- Number of contradiction issues: the `findall` matches, capped at 2. -/
def nContra (resp : String) : Nat := min (contradiction_matches resp).length 2

def patMsgs (resp : String) : List String :=
  (matchedPatterns resp).map (fun cp => "Found absolute claim pattern: " ++ cp.1)

def contraMsgs (resp : String) : List String :=
  List.replicate (nContra resp) "Potential contradiction detected"

def shortMsgs (resp : String) : List String :=
  if wordCount resp.data < 20 then ["Response too short (may be incomplete)"] else []

/-- The "no quoted sources" check fires iff there is no quote character and
the response is longer than 200 characters. -/
def noQuoteLong (resp : String) : Bool :=
  quoteCount resp.data == 0 && resp.length > 200

def quoteMsgs (resp : String) : List String :=
  if noQuoteLong resp then ["No quoted sources found"] else []

def allIssues (resp : String) : List String :=
  patMsgs resp ++ contraMsgs resp ++ shortMsgs resp ++ quoteMsgs resp

/-- The confidence before the clamp at 0: one deduction per fired check. -/
def rawConfidence (resp : String) : ℚ :=
  1 - 0.15 * ((matchedPatterns resp).length : ℚ) - 0.10 * (nContra resp : ℚ)
    - (if wordCount resp.data < 20 then 0.20 else 0)
    - (if noQuoteLong resp then 0.05 else 0)

/-! ### `calculate_confidence` -/

/-- `round(x, 2)` on exact rationals. -/
def round2 (q : ℚ) : ℚ := (round (q * 100) : ℚ) / 100

/-- Embedding of `calculate_confidence` from `src/integrations/validator.py`. -/
def calculate_confidence (response : String) (validation : ValidationReport) : ℚ :=
  let validation_confidence := validation.confidence
  let response_len : ℚ := (wordCount response.data : ℚ)
  let length_score : ℚ := min (response_len / 200) 1
  let citation_score : ℚ :=
    if response.data.contains dquote || response.data.contains squote then 0.8 else 0.6
  round2 (validation_confidence * 0.5 + length_score * 0.2 + citation_score * 0.3)

/-- The weighted formula written from the specification text (section 4.5),
for comparison with the embedded `calculate_confidence`. -/
def scorer_spec (response : String) (v : ℚ) : ℚ :=
  round2 (v * 0.5 + (min ((wordCount response.data : ℚ) / 200) 1) * 0.2 +
    (if response.data.contains dquote || response.data.contains squote then 0.8 else 0.6) * 0.3)

/-! ### Stage inputs of the pipeline (`Orchestrator.run` in `src/core/orchestrator.py`) -/

/-- `full_task` as assembled in `Orchestrator.run`: the caller's task, with
the caller's context appended when present. -/
def full_task (task : String) (context : Option String) : String :=
  match context with
  | some c => task ++ "\n\nContext:\n" ++ c
  | none => task

/-- The `description` of `developer_task` — a fixed string in the source. -/
def developer_description : String :=
  "Implement the manager's plan. Write production-ready code."

/-- The `description` of `tester_task` — a fixed string in the source. -/
def tester_description : String :=
  "Test the code thoroughly, find bugs, generate test cases"

/-- One pipeline stage's input: its task description plus, for stages after
the first, the preceding stage's output supplied as working context. -/
structure StageInput where
  description : String
  priorOutput : Option String
deriving DecidableEq

def managerInput (task : String) (context : Option String) : StageInput :=
  { description := full_task task context, priorOutput := none }

def developerInput (managerOut : String) : StageInput :=
  { description := developer_description, priorOutput := some managerOut }

def testerInput (developerOut : String) : StageInput :=
  { description := tester_description, priorOutput := some developerOut }

/-- Modelled from the spec for the part outside this repository: the
sequential crew runtime hands each task only the preceding task's output as
context ("threading each stage's output forward as input/context to the
next").  The descriptions themselves are embedded from the source. -/
def stageInputs (task : String) (context : Option String)
    (managerOut developerOut : String) : List StageInput :=
  [managerInput task context, developerInput managerOut, testerInput developerOut]

/-- Plain (case-sensitive) substring occurrence. -/
def containsSubstr (pat : List Char) : List Char → Bool
  | [] => pat.isEmpty
  | c :: rest => matchesAt charEqCS pat (c :: rest) || containsSubstr pat rest

/-- A stage input contains a text when one of its components does. -/
def stageInputContains (si : StageInput) (t : String) : Bool :=
  containsSubstr t.data si.description.data ||
    (match si.priorOutput with
     | some o => containsSubstr t.data o.data
     | none => false)

/-! ### The execution supervisor (`Orchestrator.run`)

The run is modelled as a pure function of the crew's outcome (the external
LLM calls are opaque) and of the ambient clock readings. -/

/-- Outcome of `crew.kickoff()`: a final text, or a raised error. -/
inductive CrewOutcome where
  | ok : String → CrewOutcome
  | err : String → CrewOutcome
deriving DecidableEq

/-- A JSON-like value of the audit record dictionaries. -/
inductive JValue where
  | str : String → JValue
  | num : ℚ → JValue
  | report : ValidationReport → JValue
  | null : JValue
deriving DecidableEq

/-- The success-path `execution_data` dictionary uploaded to the audit sink,
with its keys in source order. -/
def successAudit (request_id task : String) (context : Option String)
    (result : String) (confidence : ℚ) (validation : ValidationReport)
    (execution_time_ms : ℚ) (timestamp : String) : List (String × JValue) :=
  [("request_id", .str request_id),
   ("task", .str task),
   ("context", match context with | some c => .str c | none => .null),
   ("result", .str (result.take 5000)),
   ("confidence", .num confidence),
   ("validation", .report validation),
   ("execution_time_ms", .num execution_time_ms),
   ("timestamp", .str timestamp)]

/-- The failure-path dictionary uploaded to the audit sink, with its keys in
source order. -/
def failureAudit (request_id task error : String) (execution_time_ms : ℚ)
    (timestamp : String) : List (String × JValue) :=
  [("request_id", .str request_id),
   ("task", .str task),
   ("error", .str error),
   ("execution_time_ms", .num execution_time_ms),
   ("timestamp", .str timestamp)]

/-- The dictionary `Orchestrator.run` returns to its caller on success. -/
structure SuccessResponse where
  request_id : String
  result : String
  status : String
  confidence_score : ℚ
  execution_time_ms : ℚ
  validation_issues : List String
deriving DecidableEq

/-- Observable outcome of one `Orchestrator.run` call: the audit record it
wrote, and either the returned dictionary or the re-raised error. -/
inductive RunOutcome where
  | completed : List (String × JValue) → SuccessResponse → RunOutcome
  | raised : List (String × JValue) → String → RunOutcome
deriving DecidableEq

/-- Embedding of `Orchestrator.run`: on a crew result it validates, scores
and records; on a crew error it records the failure and re-raises. -/
def orchestratorRun (task : String) (context : Option String)
    (request_id : String) (outcome : CrewOutcome) (elapsedMs : ℚ)
    (timestamp : String) : RunOutcome :=
  match outcome with
  | .ok result =>
      let validation := validate_response result
      let confidence := calculate_confidence result validation
      .completed
        (successAudit request_id task context result confidence validation
          elapsedMs timestamp)
        { request_id := request_id,
          result := result,
          status := if validation.status == "passed" then "validated" else "flagged",
          confidence_score := confidence,
          execution_time_ms := elapsedMs,
          validation_issues := validation.issues }
  | .err e =>
      .raised (failureAudit request_id task e elapsedMs timestamp) e

/-- The audit record a run wrote, success or failure. -/
def runAudit : RunOutcome → List (String × JValue)
  | .completed a _ => a
  | .raised a _ => a

/-! ### Concrete sample inputs used by the scenario claims -/

/-- Scenario A of the spec: one pattern match ("always"), 7 words. -/
def scenarioA : String := "The cache always evicts the oldest entry."

/-- A variant of scenario A with 22 words, still exactly one pattern match
and nothing else that fires a check. -/
def scenarioA_long : String :=
  "The cache always evicts the oldest entry when it fills up so the application keeps memory usage bounded during long running sessions."

/-- A 25-word response with a quoted phrase, no pattern matches and no
contradiction clause. -/
def sample_passed : String :=
  "According to the design notes, " ++ dquote.toString ++
    "the scheduler keeps one record per request" ++ dquote.toString ++
    " and the three stages run in a fixed order for each incoming task."

/-- A 5-word response without quotes (scenario B). -/
def sample_short : String := "Too short to say much"

/-- A 250-word response containing a double-quoted word (scenario D). -/
def sample250 : String :=
  String.intercalate " "
    (List.replicate 249 "w" ++ [dquote.toString ++ "q" ++ dquote.toString])

/-! ## Characterization lemmas for `validate_response` -/

lemma patInner_foldl (resp cat : String) (pats : List String) :
    ∀ (is : List String) (c : ℚ),
      pats.foldl (patInner resp cat) (is, c)
        = (is ++ (pats.filter (fun p => searchWordCI p resp.data)).map
              (fun _ => "Found absolute claim pattern: " ++ cat),
           c - 0.15 * ((pats.filter (fun p => searchWordCI p resp.data)).length : ℚ)) := by
  induction pats with
  | nil => intro is c; simp
  | cons p ps ih =>
      intro is c
      by_cases h : searchWordCI p resp.data
      · rw [List.foldl_cons,
          show patInner resp cat (is, c) p
              = (is ++ ["Found absolute claim pattern: " ++ cat], c - 0.15) from by
            simp [patInner, h],
          ih]
        have hfil : (p :: ps).filter (fun q => searchWordCI q resp.data)
            = p :: ps.filter (fun q => searchWordCI q resp.data) := by
          simp [List.filter_cons, h]
        rw [hfil]
        refine Prod.ext ?_ ?_
        · simp [List.append_assoc]
        · simp only [List.length_cons]
          push_cast
          ring
      · rw [List.foldl_cons,
          show patInner resp cat (is, c) p = (is, c) from by
            simp [patInner, h],
          ih]
        have hfil : (p :: ps).filter (fun q => searchWordCI q resp.data)
            = ps.filter (fun q => searchWordCI q resp.data) := by
          simp [List.filter_cons, h]
        rw [hfil]

lemma patStep_foldl (resp : String) (L : List (String × List String)) :
    ∀ (is : List String) (c : ℚ),
      L.foldl (patStep resp) (is, c)
        = (is ++ (matchedIn resp L).map (fun cp => "Found absolute claim pattern: " ++ cp.1),
           c - 0.15 * ((matchedIn resp L).length : ℚ)) := by
  induction L with
  | nil => intro is c; simp [matchedIn, pairsOf]
  | cons cp L ih =>
      intro is c
      rw [List.foldl_cons, show patStep resp (is, c) cp
            = (is ++ (cp.2.filter (fun p => searchWordCI p resp.data)).map
                  (fun _ => "Found absolute claim pattern: " ++ cp.1),
               c - 0.15 * ((cp.2.filter (fun p => searchWordCI p resp.data)).length : ℚ))
          from patInner_foldl resp cp.1 cp.2 is c,
        ih]
      have hsplit : matchedIn resp (cp :: L)
          = (cp.2.filter (fun p => searchWordCI p resp.data)).map (fun p => (cp.1, p))
              ++ matchedIn resp L := by
        simp only [matchedIn, pairsOf, List.flatMap_cons, List.filter_append,
          List.filter_map]
        rfl
      rw [hsplit]
      refine Prod.ext ?_ ?_
      · simp only [List.map_append, List.map_map, List.append_assoc]
        rfl
      · simp only [List.length_append, List.length_map]
        push_cast
        ring

lemma contraStep_foldl (l : List (List Char)) (is : List String) (c : ℚ) :
    (l.take 2).foldl contraStep (is, c)
      = (is ++ List.replicate (min l.length 2) "Potential contradiction detected",
         c - 0.10 * ((min l.length 2 : Nat) : ℚ)) := by
  match l with
  | [] => simp [contraStep]
  | [a] => simp [contraStep, List.take, contraStep]
  | a :: b :: t =>
      have hmin : min (a :: b :: t).length 2 = 2 := by
        simp only [List.length_cons]
        omega
      rw [hmin]
      show List.foldl contraStep (is, c) [a, b] = _
      simp only [List.foldl_cons, List.foldl_nil, contraStep, List.append_assoc]
      norm_num [List.replicate]
      ring

/-- `validate_response` equals the check-by-check assembly: the issues of
the four checks in order, and the clamped sum of their deductions. -/
theorem validate_response_spec (resp : String) :
    validate_response resp =
      { status := classify (allIssues resp).length,
        issues := allIssues resp,
        confidence := max 0 (rawConfidence resp),
        issue_count := (allIssues resp).length } := by
  unfold validate_response
  simp only [patStep_foldl, contraStep_foldl]
  unfold allIssues rawConfidence patMsgs contraMsgs shortMsgs quoteMsgs nContra
    noQuoteLong matchedPatterns
  by_cases h1 : wordCount resp.data < 20 <;>
    by_cases h2 : (quoteCount resp.data == 0 && decide (resp.length > 200)) = true <;>
      simp [h1, h2, ValidationReport.mk.injEq, List.append_assoc]

/-! ## Helper lemmas for the confidence scorer -/

lemma round2_mono {a b : ℚ} (h : a ≤ b) : round2 a ≤ round2 b := by
  unfold round2
  have h2 : round (a * 100) ≤ round (b * 100) := by
    rw [round_eq, round_eq]
    exact Int.floor_mono (by linarith)
  have h3 : ((round (a * 100) : ℤ) : ℚ) ≤ ((round (b * 100) : ℤ) : ℚ) := by
    exact_mod_cast h2
  linarith

lemma round2_hundredths (n : ℤ) : round2 ((n : ℚ) / 100) = (n : ℚ) / 100 := by
  unfold round2
  rw [div_mul_cancel₀ _ (by norm_num : (100 : ℚ) ≠ 0), round_intCast]

lemma round2_raw_bounds (v ls cs : ℚ) (h0 : 0 ≤ v) (h1 : v ≤ 1)
    (hls0 : 0 ≤ ls) (hls1 : ls ≤ 1) (hcs : cs = 0.8 ∨ cs = 0.6) :
    0.18 ≤ round2 (v * 0.5 + ls * 0.2 + cs * 0.3) ∧
      round2 (v * 0.5 + ls * 0.2 + cs * 0.3) ≤ 0.94 := by
  have e18 : round2 0.18 = (0.18 : ℚ) := by
    have e : (0.18 : ℚ) = ((18 : ℤ) : ℚ) / 100 := by norm_num
    rw [e, round2_hundredths]
  have e94 : round2 0.94 = (0.94 : ℚ) := by
    have e : (0.94 : ℚ) = ((94 : ℤ) : ℚ) / 100 := by norm_num
    rw [e, round2_hundredths]
  have hlow : (0.18 : ℚ) ≤ v * 0.5 + ls * 0.2 + cs * 0.3 := by
    rcases hcs with h | h <;> rw [h] <;> nlinarith
  have hhigh : v * 0.5 + ls * 0.2 + cs * 0.3 ≤ 0.94 := by
    rcases hcs with h | h <;> rw [h] <;> nlinarith
  constructor
  · have := round2_mono hlow
    rwa [e18] at this
  · have := round2_mono hhigh
    rwa [e94] at this

/-- `calculate_confidence` always lies in `[0.18, 0.94]` when the incoming
validation confidence lies in `[0, 1]`. -/
lemma calculate_confidence_bounds (resp : String) (validation : ValidationReport)
    (h0 : 0 ≤ validation.confidence) (h1 : validation.confidence ≤ 1) :
    0.18 ≤ calculate_confidence resp validation ∧
      calculate_confidence resp validation ≤ 0.94 := by
  have hls0 : (0 : ℚ) ≤ min ((wordCount resp.data : ℚ) / 200) 1 :=
    le_min (by positivity) zero_le_one
  have hls1 : min ((wordCount resp.data : ℚ) / 200) 1 ≤ 1 := min_le_right _ _
  have hcs : (if resp.data.contains dquote || resp.data.contains squote
        then (0.8 : ℚ) else 0.6) = 0.8 ∨
      (if resp.data.contains dquote || resp.data.contains squote
        then (0.8 : ℚ) else 0.6) = 0.6 := by
    split_ifs <;> simp
  exact round2_raw_bounds _ _ _ h0 h1 hls0 hls1 hcs

/-- With at least 200 words, a quote character, and a perfect validation
confidence, the scorer reaches its maximum 0.94. -/
lemma calculate_confidence_perfect (resp : String) (validation : ValidationReport)
    (hwc : 200 ≤ wordCount resp.data)
    (hq : (resp.data.contains dquote || resp.data.contains squote) = true)
    (hv : validation.confidence = 1) :
    calculate_confidence resp validation = 0.94 := by
  have hls : min ((wordCount resp.data : ℚ) / 200) 1 = 1 := by
    refine min_eq_right ?_
    rw [le_div_iff₀ (by norm_num : (0 : ℚ) < 200)]
    exact_mod_cast hwc
  have key : calculate_confidence resp validation
      = round2 (validation.confidence * 0.5
          + (min ((wordCount resp.data : ℚ) / 200) 1) * 0.2
          + (if resp.data.contains dquote || resp.data.contains squote
              then (0.8 : ℚ) else 0.6) * 0.3) := rfl
  rw [key, hv, hq, hls]
  have e : ((1 : ℚ) * 0.5 + 1 * 0.2 + (if true = true then (0.8 : ℚ) else 0.6) * 0.3)
      = ((94 : ℤ) : ℚ) / 100 := by norm_num
  rw [e, round2_hundredths]
  norm_num

/-! ## Helper lemmas for status classification and substring containment -/

lemma classify_spec (n : Nat) :
    (classify n = "failed" ↔ 3 < n) ∧ (classify n = "flagged" ↔ 1 ≤ n ∧ n ≤ 3) ∧
      (classify n = "passed" ↔ n = 0) := by
  unfold classify
  by_cases h3 : n > 3 <;> by_cases h0 : n > 0 <;> simp [h3, h0] <;> omega

lemma matchesAt_self_append (p r : List Char) :
    matchesAt charEqCS p (p ++ r) = true := by
  induction p with
  | nil => rfl
  | cons a as ih => simp [matchesAt, charEqCS, ih]

lemma containsSubstr_self_append (p r : List Char) :
    containsSubstr p (p ++ r) = true := by
  cases p with
  | nil =>
      cases r with
      | nil => rfl
      | cons c cs => simp [containsSubstr, matchesAt]
  | cons a as =>
      simp only [List.cons_append, containsSubstr, Bool.or_eq_true]
      left
      have h := matchesAt_self_append (a :: as) r
      simpa [List.cons_append] using h

lemma containsSubstr_append_of (l p r : List Char) :
    containsSubstr p (l ++ (p ++ r)) = true := by
  induction l with
  | nil => simpa using containsSubstr_self_append p r
  | cons c t ih => simp [containsSubstr, ih]

/-! ## The claims -/

/-- C1: for every response text and every ValidationReport whose confidence
lies in [0,1], `calculate_confidence` returns exactly the weighted formula
of the spec rounded to 2 decimals, the result lies in [0,1], and for a
250-word text containing a quote and a report with confidence 1.0 the
result is 0.94. -/
theorem claim_C1 :
    (∀ (resp : String) (validation : ValidationReport),
        0 ≤ validation.confidence → validation.confidence ≤ 1 →
          calculate_confidence resp validation = scorer_spec resp validation.confidence
            ∧ 0 ≤ calculate_confidence resp validation
            ∧ calculate_confidence resp validation ≤ 1)
      ∧ calculate_confidence sample250
          { status := "passed", issues := [], confidence := 1, issue_count := 0 }
        = 0.94 := by
  constructor
  · intro resp validation h0 h1
    obtain ⟨hl, hh⟩ := calculate_confidence_bounds resp validation h0 h1
    exact ⟨rfl, le_trans (by norm_num) hl, le_trans hh (by norm_num)⟩
  · exact calculate_confidence_perfect sample250 _ (by decide) (by decide) rfl

/-- Witness for C1: the general part of C1 applied to a concrete 25-word
response and a perfect report. -/
theorem claim_C1_witness :
    calculate_confidence sample_passed
        { status := "passed", issues := [], confidence := 1, issue_count := 0 }
      = scorer_spec sample_passed
          ({ status := "passed", issues := [], confidence := 1,
             issue_count := 0 } : ValidationReport).confidence
      ∧ 0 ≤ calculate_confidence sample_passed
          { status := "passed", issues := [], confidence := 1, issue_count := 0 }
      ∧ calculate_confidence sample_passed
          { status := "passed", issues := [], confidence := 1, issue_count := 0 } ≤ 1 :=
  claim_C1.1 sample_passed
    { status := "passed", issues := [], confidence := 1, issue_count := 0 }
    (by norm_num) (by norm_num)

/-- C2 (as stated, refuted): scenario A's response has 7 words, so the
too-short check also fires: the validator returns confidence 0.65 (not
0.85) and two issues (not one). -/
theorem claim_C2_counterexample :
    matchedPatterns scenarioA = [("absolute_claims", "always")]
      ∧ (validate_response scenarioA).confidence = 0.65
      ∧ ¬ (validate_response scenarioA).confidence = 0.85
      ∧ (validate_response scenarioA).issues
          = ["Found absolute claim pattern: absolute_claims",
             "Response too short (may be incomplete)"]
      ∧ (validate_response scenarioA).status = "flagged" := by
  have h1 : matchedPatterns scenarioA = [("absolute_claims", "always")] := by decide
  have h2 : contradiction_matches scenarioA = [] := by decide
  have h3 : wordCount scenarioA.data = 7 := by decide
  have h4 : noQuoteLong scenarioA = false := by decide
  have hc : (validate_response scenarioA).confidence = 0.65 := by
    rw [validate_response_spec]
    show max 0 (rawConfidence scenarioA) = 0.65
    unfold rawConfidence nContra
    rw [h1, h2, h3, h4]
    norm_num
  refine ⟨h1, hc, ?_, by decide, by decide⟩
  rw [hc]
  norm_num

/-- C2 (amended): for every response matching exactly one pattern of one
category, with no contradiction clause, at least 20 words, and not
triggering the quote check, the validator returns exactly one issue,
confidence 0.85 and status flagged. -/
theorem claim_C2 (resp cat pat : String)
    (hm : matchedPatterns resp = [(cat, pat)])
    (hcon : contradiction_matches resp = [])
    (hwc : 20 ≤ wordCount resp.data)
    (hq : noQuoteLong resp = false) :
    validate_response resp
      = { status := "flagged",
          issues := ["Found absolute claim pattern: " ++ cat],
          confidence := 0.85, issue_count := 1 } := by
  rw [validate_response_spec]
  have hni : allIssues resp = ["Found absolute claim pattern: " ++ cat] := by
    unfold allIssues patMsgs contraMsgs shortMsgs quoteMsgs nContra
    rw [hm, hcon, hq]
    simp [Nat.not_lt.mpr hwc]
  have hconf : rawConfidence resp = 0.85 := by
    unfold rawConfidence nContra
    rw [hm, hcon, hq]
    simp only [List.length_singleton, List.length_nil, Nat.cast_one,
      if_neg (Nat.not_lt.mpr hwc)]
    norm_num
  rw [hni, hconf]
  have hmax : max (0 : ℚ) 0.85 = 0.85 := max_eq_right (by norm_num)
  rw [hmax]
  rfl

/-- Witness for C2 (amended): a 22-word variant of scenario A with a single
"always" match. -/
theorem claim_C2_witness :
    validate_response scenarioA_long
      = { status := "flagged",
          issues := ["Found absolute claim pattern: absolute_claims"],
          confidence := 0.85, issue_count := 1 } :=
  claim_C2 scenarioA_long "absolute_claims" "always"
    (by decide) (by decide) (by decide) (by decide)

/-- C3: a response with no pattern match, no contradiction clause, at least
20 words and at least one quotation character passes with no issues and
confidence 1.0. -/
theorem claim_C3 (resp : String)
    (hpat : matchedPatterns resp = [])
    (hcon : contradiction_matches resp = [])
    (hwc : 20 ≤ wordCount resp.data)
    (hq : 1 ≤ quoteCount resp.data) :
    validate_response resp
      = { status := "passed", issues := [], confidence := 1, issue_count := 0 } := by
  rw [validate_response_spec]
  have h0 : quoteCount resp.data ≠ 0 := by omega
  have hnq : noQuoteLong resp = false := by
    unfold noQuoteLong
    simp [h0]
  have hni : allIssues resp = [] := by
    unfold allIssues patMsgs contraMsgs shortMsgs quoteMsgs nContra
    rw [hpat, hcon, hnq]
    simp [Nat.not_lt.mpr hwc]
  have hconf : rawConfidence resp = 1 := by
    unfold rawConfidence nContra
    rw [hpat, hcon, hnq]
    simp [Nat.not_lt.mpr hwc]
  rw [hni, hconf]
  have hmax : max (0 : ℚ) 1 = 1 := max_eq_right (by norm_num)
  rw [hmax]
  rfl

/-- Witness for C3: a 25-word response with a quoted phrase. -/
theorem claim_C3_witness :
    validate_response sample_passed
      = { status := "passed", issues := [], confidence := 1, issue_count := 0 } :=
  claim_C3 sample_passed (by decide) (by decide) (by decide) (by decide)

/-- C4: every matching (category, pattern) pair contributes exactly one
issue "Found absolute claim pattern: category" and one 0.15 deduction;
distinct patterns of the same category count separately (the matched list
keeps one entry per matching pattern). -/
theorem claim_C4 (resp : String) :
    (validate_response resp).issues
        = (matchedPatterns resp).map (fun cp => "Found absolute claim pattern: " ++ cp.1)
            ++ contraMsgs resp ++ shortMsgs resp ++ quoteMsgs resp
      ∧ (validate_response resp).confidence
        = max 0 (1 - 0.15 * ((matchedPatterns resp).length : ℚ)
            - 0.10 * (nContra resp : ℚ)
            - (if wordCount resp.data < 20 then (0.20 : ℚ) else 0)
            - (if noQuoteLong resp then (0.05 : ℚ) else 0))
      ∧ matchedPatterns resp
        = allPatterns.filter (fun cp => searchWordCI cp.2 resp.data) := by
  refine ⟨?_, ?_, rfl⟩ <;> rw [validate_response_spec] <;> rfl

/-- C5: the status is failed exactly for more than 3 issues, flagged
exactly for 1 to 3 issues, passed exactly for none, and issue_count always
equals the length of the issues list. -/
theorem claim_C5 (resp : String) :
    ((validate_response resp).status = "failed"
        ↔ 3 < (validate_response resp).issues.length)
      ∧ ((validate_response resp).status = "flagged"
        ↔ 1 ≤ (validate_response resp).issues.length
            ∧ (validate_response resp).issues.length ≤ 3)
      ∧ ((validate_response resp).status = "passed"
        ↔ (validate_response resp).issues.length = 0)
      ∧ (validate_response resp).issue_count = (validate_response resp).issues.length := by
  rw [validate_response_spec]
  exact ⟨(classify_spec _).1, (classify_spec _).2.1, (classify_spec _).2.2, rfl⟩

/-- C8: the contradiction check contributes one "Potential contradiction
detected" issue per clause containing "but" or "however", capped at the
first 2, each deducting 0.10. -/
theorem claim_C8 (resp : String) :
    (validate_response resp).issues
        = patMsgs resp
            ++ List.replicate (min (contradiction_matches resp).length 2)
                "Potential contradiction detected"
            ++ shortMsgs resp ++ quoteMsgs resp
      ∧ (validate_response resp).confidence
        = max 0 (1 - 0.15 * ((matchedPatterns resp).length : ℚ)
            - 0.10 * ((min (contradiction_matches resp).length 2 : ℕ) : ℚ)
            - (if wordCount resp.data < 20 then (0.20 : ℚ) else 0)
            - (if noQuoteLong resp then (0.05 : ℚ) else 0))
      ∧ contradiction_matches resp = (splitSegs resp.data).filter hasContradiction := by
  refine ⟨?_, ?_, rfl⟩ <;> rw [validate_response_spec] <;> rfl

/-- C9: a response of fewer than 20 words gets the too-short issue and a
0.20 deduction; a 5-word quoteless response has the issue and confidence at
most 0.80. -/
theorem claim_C9 (resp : String) :
    (wordCount resp.data < 20 →
        "Response too short (may be incomplete)" ∈ (validate_response resp).issues
          ∧ (validate_response resp).confidence
            = max 0 (1 - 0.15 * ((matchedPatterns resp).length : ℚ)
                - 0.10 * (nContra resp : ℚ) - 0.20
                - (if noQuoteLong resp then (0.05 : ℚ) else 0)))
      ∧ (wordCount resp.data = 5 → quoteCount resp.data = 0 →
          "Response too short (may be incomplete)" ∈ (validate_response resp).issues
            ∧ (validate_response resp).confidence ≤ 0.80) := by
  constructor
  · intro h
    rw [validate_response_spec]
    constructor
    · show _ ∈ allIssues resp
      unfold allIssues shortMsgs
      simp [h]
    · show max 0 (rawConfidence resp) = _
      unfold rawConfidence
      rw [if_pos h]
  · intro h5 hq0
    have h : wordCount resp.data < 20 := by omega
    rw [validate_response_spec]
    constructor
    · show _ ∈ allIssues resp
      unfold allIssues shortMsgs
      simp [h]
    · show max 0 (rawConfidence resp) ≤ 0.80
      have ha : (0 : ℚ) ≤ 0.15 * ((matchedPatterns resp).length : ℚ) := by positivity
      have hb : (0 : ℚ) ≤ 0.10 * (nContra resp : ℚ) := by positivity
      have hd : (0 : ℚ) ≤ (if noQuoteLong resp then (0.05 : ℚ) else 0) := by
        split_ifs <;> norm_num
      have hr : rawConfidence resp ≤ 0.80 := by
        unfold rawConfidence
        rw [if_pos h]
        linarith
      exact max_le (by norm_num) hr

/-- Witness for C9: the 5-word quoteless response of scenario B. -/
theorem claim_C9_witness :
    "Response too short (may be incomplete)" ∈ (validate_response sample_short).issues
      ∧ (validate_response sample_short).confidence ≤ 0.80 :=
  (claim_C9 sample_short).2 (by decide) (by decide)

/-- C10: with a validation confidence in [0,1] the final confidence always
lies in [0.18, 0.94]; the maximum 0.94 is attained for at least 200 words,
a quote character, and a perfect validation confidence. -/
theorem claim_C10 :
    (∀ (resp : String) (validation : ValidationReport),
        0 ≤ validation.confidence → validation.confidence ≤ 1 →
          0.18 ≤ calculate_confidence resp validation
            ∧ calculate_confidence resp validation ≤ 0.94)
      ∧ (∀ (resp : String) (validation : ValidationReport),
          200 ≤ wordCount resp.data →
            (resp.data.contains dquote || resp.data.contains squote) = true →
            validation.confidence = 1 →
            calculate_confidence resp validation = 0.94) :=
  ⟨fun resp validation h0 h1 => calculate_confidence_bounds resp validation h0 h1,
   fun resp validation h1 h2 h3 => calculate_confidence_perfect resp validation h1 h2 h3⟩

/-- Witness for C10: bounds and attainment at the 250-word quoted sample. -/
theorem claim_C10_witness :
    (0.18 ≤ calculate_confidence sample250
        { status := "passed", issues := [], confidence := 1, issue_count := 0 }
      ∧ calculate_confidence sample250
          { status := "passed", issues := [], confidence := 1, issue_count := 0 } ≤ 0.94)
      ∧ calculate_confidence sample250
          { status := "passed", issues := [], confidence := 1, issue_count := 0 } = 0.94 :=
  ⟨claim_C10.1 sample250
      { status := "passed", issues := [], confidence := 1, issue_count := 0 }
      (by norm_num) (by norm_num),
   claim_C10.2 sample250
      { status := "passed", issues := [], confidence := 1, issue_count := 0 }
      (by decide) (by decide) rfl⟩

/-- C6 (as stated, refuted): the failure audit record carries the error and
timing but has no status field at all, so it does not carry
status = "error". -/
theorem claim_C6_counterexample :
    orchestratorRun "some task" none "req-1" (CrewOutcome.err "transport error") 5 "t0"
        = RunOutcome.raised
            (failureAudit "req-1" "some task" "transport error" 5 "t0") "transport error"
      ∧ (runAudit (orchestratorRun "some task" none "req-1"
            (CrewOutcome.err "transport error") 5 "t0")).lookup "status" = none
      ∧ ¬ (runAudit (orchestratorRun "some task" none "req-1"
            (CrewOutcome.err "transport error") 5 "t0")).lookup "status"
          = some (JValue.str "error") := by
  refine ⟨rfl, rfl, ?_⟩
  exact fun h => nomatch h

/-- C6 (amended): on a crew failure the supervisor writes a failure record
carrying the error message and the elapsed time, omitting result,
confidence, validation, context and any status field, and re-raises the
same error; validation and scoring never contribute to the record. -/
theorem claim_C6 (task : String) (context : Option String)
    (request_id error : String) (elapsedMs : ℚ) (timestamp : String) :
    orchestratorRun task context request_id (CrewOutcome.err error) elapsedMs timestamp
        = RunOutcome.raised (failureAudit request_id task error elapsedMs timestamp) error
      ∧ (failureAudit request_id task error elapsedMs timestamp).lookup "error"
          = some (JValue.str error)
      ∧ (failureAudit request_id task error elapsedMs timestamp).lookup "execution_time_ms"
          = some (JValue.num elapsedMs)
      ∧ (failureAudit request_id task error elapsedMs timestamp).lookup "result" = none
      ∧ (failureAudit request_id task error elapsedMs timestamp).lookup "confidence" = none
      ∧ (failureAudit request_id task error elapsedMs timestamp).lookup "validation" = none
      ∧ (failureAudit request_id task error elapsedMs timestamp).lookup "status" = none
      ∧ (failureAudit request_id task error elapsedMs timestamp).lookup "context" = none :=
  ⟨rfl, rfl, rfl, rfl, rfl, rfl, rfl, rfl⟩

/-- C7 (as stated, refuted): for a concrete pipeline run, the Developer and
Tester stage inputs contain neither the original task text nor the caller
context. -/
theorem claim_C7_counterexample :
    stageInputs "ORIGINALTASKXYZ" (some "CALLERCONTEXT") "plan text" "code text"
        = [managerInput "ORIGINALTASKXYZ" (some "CALLERCONTEXT"),
           developerInput "plan text", testerInput "code text"]
      ∧ stageInputContains (developerInput "plan text") "ORIGINALTASKXYZ" = false
      ∧ stageInputContains (developerInput "plan text") "CALLERCONTEXT" = false
      ∧ stageInputContains (testerInput "code text") "ORIGINALTASKXYZ" = false :=
  ⟨rfl, by decide, by decide, by decide⟩

/-- C7 (amended): the Manager stage's input contains the caller's task and
context; the Developer and Tester stages receive a fixed role description
plus only the immediately preceding stage's output. -/
theorem claim_C7 (task : String) (context : Option String) (mOut dOut : String) :
    stageInputs task context mOut dOut
        = [managerInput task context, developerInput mOut, testerInput dOut]
      ∧ stageInputContains (managerInput task context) task = true
      ∧ (∀ c, context = some c → stageInputContains (managerInput task context) c = true)
      ∧ (developerInput mOut).description = developer_description
      ∧ (developerInput mOut).priorOutput = some mOut
      ∧ stageInputContains (developerInput mOut) mOut = true
      ∧ (testerInput dOut).description = tester_description
      ∧ (testerInput dOut).priorOutput = some dOut
      ∧ stageInputContains (testerInput dOut) dOut = true := by
  refine ⟨rfl, ?_, ?_, rfl, rfl, ?_, rfl, rfl, ?_⟩
  · unfold stageInputContains managerInput full_task
    cases context with
    | none =>
        have h := containsSubstr_self_append task.data []
        rw [List.append_nil] at h
        simp [h]
    | some c =>
        have h := containsSubstr_self_append task.data
          ("\n\nContext:\n".data ++ c.data)
        simp only [String.data_append, List.append_assoc, Bool.or_false]
        simpa using h
  · intro c hc
    subst hc
    unfold stageInputContains managerInput full_task
    have h := containsSubstr_append_of (task.data ++ "\n\nContext:\n".data) c.data []
    rw [List.append_nil] at h
    simp only [List.append_assoc] at h
    simp only [String.data_append, List.append_assoc, Bool.or_false]
    simpa using h
  · unfold stageInputContains developerInput
    have h := containsSubstr_self_append mOut.data []
    rw [List.append_nil] at h
    simp [h]
  · unfold stageInputContains testerInput
    have h := containsSubstr_self_append dOut.data []
    rw [List.append_nil] at h
    simp [h]

/-- Witness for C7 (amended): concrete task, context, and stage outputs. -/
theorem claim_C7_witness :
    stageInputContains (managerInput "summarize the log file" (some "batch mode"))
        "summarize the log file" = true
      ∧ stageInputContains (managerInput "summarize the log file" (some "batch mode"))
          "batch mode" = true
      ∧ stageInputContains (developerInput "the plan body") "the plan body" = true :=
  ⟨(claim_C7 "summarize the log file" (some "batch mode") "the plan body" "the code").2.1,
   (claim_C7 "summarize the log file" (some "batch mode") "the plan body" "the code").2.2.1
     "batch mode" rfl,
   (claim_C7 "summarize the log file" (some "batch mode") "the plan body" "the code").2.2.2.2.2.1⟩

end AgentsBackend
